import Mathlib

/-!
Verification of the bowling-game core of this repository.

The embedding follows the two Python source files:

* `myapp/helper.py`, function `calculate_current_score`: walks a list of
  rolls with an index, accumulating the score, and finally writes a single
  breakdown entry keyed by the final index.  The `while` loop is rendered
  below as `scoreLoop`, whose first argument is the suffix of the roll list
  starting at the current `frame_index`; a result of `none` models an
  uncaught Python exception.  Python raises in two places:
  - when the frame is not a strike and there is no second roll,
    `roll1[1] + roll2[1]` subscripts `roll2 = None` (TypeError);
  - when the roll list is empty the post-loop breakdown write reads the
    loop-local variable `where`, which was never assigned
    (UnboundLocalError).  The `where` variable is modelled as an
    `Option String`, starting as `none`.

* `myapp/routes.py`: a module-level store `games` mapping a game id to its
  roll list plus a counter `game_id_counter`, and the handlers
  `create_game`, `record_roll` and `get_score`.  A candidate roll arrives
  as a JSON value; the type `PyVal` models the Python values such a body
  can hold.  Each Python comparison that can raise a TypeError, and each
  list subscript that can raise an IndexError, is modelled by an `Option`
  whose `none` means the exception.
-/

namespace Bowling

/-- A stored roll `[frame_position, pins]` as it sits in a game's roll
history.  Both components are Python integers. -/
structure Roll where
  pos : Int
  pins : Int
deriving DecidableEq, Repr

/-- Pins of the first roll of a list, or 0 when the list is empty: models
the guarded lookahead `rolls[frame_index + 1][1] if frame_index + 1 < len(rolls) else 0`
relative to the suffix after the current roll. -/
def pinsHead : List Roll → Int
  | [] => 0
  | r :: _ => r.pins

/-- Pins of the second roll of a list, or 0 when absent: models the guarded
lookahead two positions ahead of the current roll. -/
def pinsSecond : List Roll → Int
  | _ :: r :: _ => r.pins
  | _ => 0

/-- The `while frame_index < len(rolls)` loop of `calculate_current_score`.
The first argument is the suffix `rolls[frame_index:]`; `i` is
`frame_index`, `acc` is `current_score`, and `w` is the loop-local variable
`where` (`none` = not yet assigned).  Returns `none` when Python would
raise: a non-strike first roll with no second roll subscripts `None`. -/
def scoreLoop : List Roll → Nat → Int → Option String → Option (Int × Nat × Option String)
  | [], i, acc, w => some (acc, i, w)
  | r1 :: rest, i, acc, _ =>
    if r1.pins = 10 then
      scoreLoop rest (i + 1) (acc + (10 + pinsHead rest + pinsSecond rest)) (some "Strike")
    else
      match rest with
      | [] => none
      | r2 :: rest2 =>
        if r1.pins + r2.pins = 10 then
          scoreLoop rest2 (i + 2) (acc + (10 + pinsHead rest2)) (some "Spare")
        else
          scoreLoop rest2 (i + 2) (acc + (r1.pins + r2.pins)) (some "Open frame")

/-- The breakdown dictionary: in the source only one entry, keyed
`f"frame_{frame_index}"`, holding `[current_score, where]`, is ever
written, after the loop. -/
abbrev Breakdown := List (String × Int × String)

/-- Model of `calculate_current_score` in `myapp/helper.py`.  `none` means
the call raises: either inside the loop (see `scoreLoop`) or at the
post-loop breakdown write when `where` was never assigned (empty input). -/
def calculate_current_score (rolls : List Roll) : Option (Int × Breakdown) :=
  match scoreLoop rolls 0 0 none with
  | none => none
  | some (_, _, none) => none
  | some (total, fi, some w) => some (total, [("frame_" ++ toString fi, total, w)])

/-- Sum of the pins of all rolls of a history. -/
def sumPins : List Roll → Int
  | [] => 0
  | r :: rest => r.pins + sumPins rest

/-- A Python value as it can arrive in the JSON request body under the
key `roll` (floats are not needed by any claim and are omitted). -/
inductive PyVal where
  | pynone : PyVal
  | pyint (n : Int) : PyVal
  | pybool (b : Bool) : PyVal
  | pystr (s : String) : PyVal
  | pylist (xs : List PyVal) : PyVal

/-- Python list subscript `xs[i]`; `none` models an IndexError. -/
def pyIndex (xs : List PyVal) (i : Nat) : Option PyVal :=
  xs[i]?

/-- Python equality `x == m` against an int literal, as used by the
membership test `roll[0] not in [1, 2]`: ints compare numerically, bools
compare as 0/1, other values are simply unequal. -/
def pyEqInt : PyVal → Int → Bool
  | .pyint n, m => n == m
  | .pybool b, m => (if b then (1 : Int) else 0) == m
  | _, _ => false

/-- Python comparison `x < m` against an int literal; `none` models the
TypeError raised when `x` is not a number. -/
def pyLtInt : PyVal → Int → Option Bool
  | .pyint n, m => some (decide (n < m))
  | .pybool b, m => some (decide ((if b then (1 : Int) else 0) < m))
  | _, _ => none

/-- Python comparison `x > m` against an int literal; `none` models the
TypeError raised when `x` is not a number. -/
def pyGtInt : PyVal → Int → Option Bool
  | .pyint n, m => some (decide (m < n))
  | .pybool b, m => some (decide (m < (if b then (1 : Int) else 0)))
  | _, _ => none

/-- Python `type(x) is int` (note `type(True) is int` is `False`). -/
def isInt : PyVal → Bool
  | .pyint _ => true
  | _ => false

/-- The structural-validation condition of `record_roll` in
`myapp/routes.py`, an `or`-chain evaluated left to right with Python
short-circuiting:

    (roll is None) or (not isinstance(roll, list)) or
    (roll[0] not in [1, 2]) or (roll[1] < 0) or (roll[1] > 10) or
    (len(roll) != 2) or (type(roll[0]) is not int) or (type(roll[1]) is not int)

`some true` means the condition is `True` (reject, "Invalid roll input"),
`some false` means it is `False` (the roll passes), `none` means a
subexpression raised (IndexError from `roll[0]`/`roll[1]`, or TypeError
from an order comparison on a non-number). -/
def structCheck : PyVal → Option Bool
  | .pynone => some true
  | .pylist xs =>
    match pyIndex xs 0 with
    | none => none
    | some x0 =>
      if !(pyEqInt x0 1 || pyEqInt x0 2) then some true
      else
        match pyIndex xs 1 with
        | none => none
        | some x1 =>
          match pyLtInt x1 0 with
          | none => none
          | some blt =>
            if blt then some true
            else
              match pyGtInt x1 10 with
              | none => none
              | some bgt =>
                if bgt then some true
                else if xs.length ≠ 2 then some true
                else if !(isInt x0) then some true
                else if !(isInt x1) then some true
                else some false
  | _ => some true

/-- The frame-transition condition of `record_roll` (the four-way `or`
that produces `"roll number {roll[0]} invalid"`). -/
def rollNumberInvalid (last cand : Roll) : Bool :=
  (last.pos == 2 && cand.pos == 2) ||
  (last.pos == 1 && decide (last.pins < 10) && cand.pos == 1) ||
  (last.pos == 0 && cand.pos == 2) ||
  (last.pos == 1 && last.pins == 10 && cand.pos == 2)

/-- The final frame-overflow condition of `record_roll` (producing
`"Roll points cannot be greater than 10 in a frame"`). -/
def frameOverflowCheck (last cand : Roll) : Bool :=
  last.pos == 1 && cand.pos == 2 && decide (cand.pins + last.pins > 10)

/-- The last accepted roll of a history, `rolls[-1] if len(rolls) > 0 else [0, 0]`. -/
def lastRoll (rolls : List Roll) : Roll :=
  (rolls.getLast?).getD ⟨0, 0⟩

/-- The module-level state of `myapp/routes.py`: the counter
`game_id_counter` and the dictionary `games` from game id to roll list. -/
structure GameStore where
  game_id_counter : Int
  games : Int → Option (List Roll)

/-- The state at process start: `game_id_counter = 1`, `games = {}`. -/
def emptyStore : GameStore :=
  { game_id_counter := 1, games := fun _ => none }

/-- Model of the `create_game` handler: returns the fresh game id and the
updated store (new empty roll list, counter incremented). -/
def create_game (st : GameStore) : Int × GameStore :=
  (st.game_id_counter,
   { game_id_counter := st.game_id_counter + 1,
     games := fun gid => if gid = st.game_id_counter then some [] else st.games gid })

/-- The possible outcomes of the `record_roll` handler. -/
inductive RollResponse where
  | notFound : RollResponse
  | invalidInput : RollResponse
  | invalidRollNumber (k : Int) : RollResponse
  | frameOverflow : RollResponse
  | recorded (r : Roll) : RollResponse
  | raised : RollResponse
deriving DecidableEq, Repr

/-- Model of the `record_roll` handler in `myapp/routes.py`, following the
source order: 404 when the game id is unknown; the structural check
(`raised` when it raises); the frame-transition check against
`last_roll = rolls[-1] if rolls else [0, 0]`; the frame-overflow check;
and only then the append.  When the structural check passes, the candidate
is a two-element list of ints `[p, n]` whose components satisfy the
bounds of `structCheck_int_pair_bounds`, recorded in the store as
`⟨p, n⟩`; the catch-all arm of the shape match is unreachable. -/
def record_roll (st : GameStore) (game_id : Int) (roll : PyVal) : RollResponse × GameStore :=
  match st.games game_id with
  | none => (.notFound, st)
  | some rolls =>
    match structCheck roll with
    | none => (.raised, st)
    | some true => (.invalidInput, st)
    | some false =>
      match roll with
      | .pylist [.pyint p, .pyint n] =>
        if rollNumberInvalid (lastRoll rolls) ⟨p, n⟩ then
          (.invalidRollNumber p, st)
        else if frameOverflowCheck (lastRoll rolls) ⟨p, n⟩ then
          (.frameOverflow, st)
        else
          (.recorded ⟨p, n⟩,
           { st with games := fun gid =>
               if gid = game_id then some (rolls ++ [(⟨p, n⟩ : Roll)]) else st.games gid })
      | _ => (.raised, st)

/-- The possible outcomes of the `get_score` handler. -/
inductive ScoreResponse where
  | notFound : ScoreResponse
  | raised : ScoreResponse
  | ok (records : List Roll) (total : Int) (breakdown : Breakdown) : ScoreResponse

/-- Model of the `get_score` handler: 404 when the game id is unknown,
otherwise the result of `calculate_current_score` on the stored rolls
(`raised` when that call raises).  The store is never changed. -/
def get_score (st : GameStore) (game_id : Int) : ScoreResponse × GameStore :=
  match st.games game_id with
  | none => (.notFound, st)
  | some rolls =>
    match calculate_current_score rolls with
    | none => (.raised, st)
    | some (total, br) => (.ok rolls total br, st)

/-- Structural well-formedness of a stored roll, as a plain predicate on
the two integers (this is what the structural check guarantees before a
roll is appended). -/
def RollOk (r : Roll) : Prop :=
  (r.pos = 1 ∨ r.pos = 2) ∧ 0 ≤ r.pins ∧ r.pins ≤ 10

/-- The store invariant of claim C9: every stored roll is structurally
well formed. -/
def StoreOk (st : GameStore) : Prop :=
  ∀ gid rolls, st.games gid = some rolls → ∀ r ∈ rolls, RollOk r

/-- A single candidate roll is accepted by the validator of `record_roll`
against a given last roll: it is structurally valid and triggers neither
the frame-transition nor the frame-overflow rejection. -/
def accepts (last cand : Roll) : Bool :=
  (cand.pos == 1 || cand.pos == 2) && decide (0 ≤ cand.pins) && decide (cand.pins ≤ 10) &&
  !(rollNumberInvalid last cand) && !(frameOverflowCheck last cand)

/-- A history is reachable from a given last roll by the validator. -/
def validFrom (last : Roll) : List Roll → Bool
  | [] => true
  | r :: rest => accepts last r && validFrom r rest

/-- A history is valid when it could have been built roll by roll through
the validator, starting from the sentinel `[0, 0]` (spec §3). -/
def validHistory (rolls : List Roll) : Bool :=
  validFrom ⟨0, 0⟩ rolls

/-- No strike in a history: no first-ball roll with 10 pins. -/
def noStrikeB : List Roll → Bool
  | [] => true
  | r :: rest => !(r.pos == 1 && r.pins == 10) && noStrikeB rest

/-- No spare in a history: no first-ball roll immediately followed by a
second-ball roll with which it sums to exactly 10. -/
def noSpareB : List Roll → Bool
  | r1 :: r2 :: rest =>
    !(r1.pos == 1 && r2.pos == 2 && r1.pins + r2.pins == 10) && noSpareB (r2 :: rest)
  | _ => true

/-- A store with one game (id 1) holding an empty history, as produced by
one `create_game` call on the initial state. -/
def demoStore : GameStore :=
  (create_game emptyStore).2

/-- The demo store after the roll `[1, 9]` was accepted for game 1. -/
def demoStore9 : GameStore :=
  (record_roll demoStore 1 (.pylist [.pyint 1, .pyint 9])).2

end Bowling

namespace Bowling

example : calculate_current_score [] = none := rfl

example : calculate_current_score [⟨1, 5⟩] = none := rfl

example : calculate_current_score [⟨1, 9⟩, ⟨2, 0⟩]
    = some (9, [("frame_2", 9, "Open frame")]) := rfl

example : calculate_current_score [⟨1, 9⟩, ⟨2, 0⟩, ⟨1, 10⟩]
    = some (19, [("frame_3", 19, "Strike")]) := rfl

example : calculate_current_score [⟨1, 10⟩]
    = some (10, [("frame_1", 10, "Strike")]) := rfl

example : (record_roll demoStore 1 (.pylist [])).1 = .raised := rfl

example : (record_roll demoStore 1 (.pylist [.pyint 1])).1 = .raised := rfl

example : (record_roll demoStore 1 (.pylist [.pyint 1, .pystr "b"])).1 = .raised := rfl

example : (record_roll demoStore 1 (.pystr "x")).1 = .invalidInput := rfl

example : (record_roll demoStore 1 (.pylist [.pystr "a", .pystr "b"])).1 = .invalidInput := rfl

example : (record_roll demoStore 1 (.pylist [.pyint 1, .pyint 12])).1 = .invalidInput := rfl

example : (record_roll demoStore 1 (.pylist [.pyint 1, .pyint 2, .pyint 3])).1 = .invalidInput := rfl

example : (record_roll demoStore 1 (.pylist [.pyint 2, .pyint 10])).1 = .invalidRollNumber 2 := rfl

example : (record_roll demoStore 1 (.pylist [.pyint 1, .pyint 2])).1 = .recorded ⟨1, 2⟩ := rfl

example : (record_roll demoStore9 1 (.pylist [.pyint 2, .pyint 5])).1 = .frameOverflow := rfl

example : demoStore9.games 1 = some [⟨1, 9⟩] := rfl

example : (record_roll demoStore 2 (.pylist [.pyint 1, .pyint 2])).1 = .notFound := rfl

/-- Unfolding of the score loop at the empty suffix (loop exit). -/
theorem scoreLoop_nil (i : Nat) (acc : Int) (w : Option String) :
    scoreLoop [] i acc w = some (acc, i, w) := rfl

/-- Unfolding of the score loop at a strike. -/
theorem scoreLoop_strike (r1 : Roll) (rest : List Roll) (i : Nat) (acc : Int)
    (w : Option String) (h : r1.pins = 10) :
    scoreLoop (r1 :: rest) i acc w
      = scoreLoop rest (i + 1) (acc + (10 + pinsHead rest + pinsSecond rest))
          (some "Strike") := by
  cases rest <;> simp [scoreLoop, h]

/-- Unfolding of the score loop at a trailing non-strike single roll: the
spare test subscripts `roll2 = None` and Python raises a TypeError. -/
theorem scoreLoop_one (r1 : Roll) (i : Nat) (acc : Int) (w : Option String)
    (h : r1.pins ≠ 10) :
    scoreLoop [r1] i acc w = none := by
  simp [scoreLoop, h]

/-- Unfolding of the score loop at a spare. -/
theorem scoreLoop_spare (r1 r2 : Roll) (rest2 : List Roll) (i : Nat) (acc : Int)
    (w : Option String) (h : r1.pins ≠ 10) (hs : r1.pins + r2.pins = 10) :
    scoreLoop (r1 :: r2 :: rest2) i acc w
      = scoreLoop rest2 (i + 2) (acc + (10 + pinsHead rest2)) (some "Spare") := by
  simp [scoreLoop, h, hs]

/-- Unfolding of the score loop at an open frame. -/
theorem scoreLoop_openf (r1 r2 : Roll) (rest2 : List Roll) (i : Nat) (acc : Int)
    (w : Option String) (h : r1.pins ≠ 10) (hs : r1.pins + r2.pins ≠ 10) :
    scoreLoop (r1 :: r2 :: rest2) i acc w
      = scoreLoop rest2 (i + 2) (acc + (r1.pins + r2.pins)) (some "Open frame") := by
  simp [scoreLoop, h, hs]

/-- A two-element int list that passes the structural check has its first
element in `{1, 2}` and its second in `[0, 10]`. -/
theorem structCheck_int_pair_bounds (p n : Int)
    (h : structCheck (.pylist [.pyint p, .pyint n]) = some false) :
    (p = 1 ∨ p = 2) ∧ 0 ≤ n ∧ n ≤ 10 := by
  have hp : p = 1 ∨ p = 2 := by
    by_contra hp
    push_neg at hp
    simp [structCheck, pyIndex, pyEqInt, hp.1, hp.2] at h
  refine ⟨hp, ?_, ?_⟩
  · by_contra h0
    push_neg at h0
    rcases hp with rfl | rfl <;>
      simp [structCheck, pyIndex, pyEqInt, pyLtInt, h0] at h
  · by_contra h10
    push_neg at h10
    have h0' : ¬ (n < 0) := by omega
    rcases hp with rfl | rfl <;>
      simp [structCheck, pyIndex, pyEqInt, pyLtInt, pyGtInt, h0', h10] at h

/-- Conversely, every candidate `[p, n]` with `p ∈ {1, 2}` and
`0 ≤ n ≤ 10` passes the structural check. -/
theorem structCheck_int_pair_pass (p n : Int) (hp : p = 1 ∨ p = 2)
    (h0 : 0 ≤ n) (h10 : n ≤ 10) :
    structCheck (.pylist [.pyint p, .pyint n]) = some false := by
  have h1 : ¬ (n < 0) := by omega
  have h2 : ¬ ((10 : Int) < n) := by omega
  rcases hp with rfl | rfl <;>
    simp [structCheck, pyIndex, pyEqInt, pyLtInt, pyGtInt, isInt, h1, h2]

/-- The boolean frame-transition condition, spelled out as a proposition. -/
theorem rollNumberInvalid_iff (last cand : Roll) :
    rollNumberInvalid last cand = true ↔
      ((last.pos = 2 ∧ cand.pos = 2) ∨
       (last.pos = 1 ∧ last.pins < 10 ∧ cand.pos = 1) ∨
       (last.pos = 0 ∧ cand.pos = 2) ∨
       (last.pos = 1 ∧ last.pins = 10 ∧ cand.pos = 2)) := by
  simp [rollNumberInvalid, and_assoc, or_assoc]

/-- Adding to the accumulator of the score loop adds to its result: the
loop is linear in `current_score`. -/
theorem scoreLoop_acc : ∀ (rolls : List Roll) (i : Nat) (a b : Int) (w : Option String),
    scoreLoop rolls i (a + b) w = (scoreLoop rolls i b w).map (fun p => (a + p.1, p.2))
  | [], i, a, b, w => by simp [scoreLoop_nil]
  | [r1], i, a, b, w => by
    by_cases h10 : r1.pins = 10
    · rw [scoreLoop_strike r1 [] i (a + b) w h10, scoreLoop_strike r1 [] i b w h10,
        show a + b + (10 + pinsHead [] + pinsSecond [])
          = a + (b + (10 + pinsHead [] + pinsSecond [])) from by ring]
      exact scoreLoop_acc [] (i + 1) a (b + (10 + pinsHead [] + pinsSecond []))
        (some "Strike")
    · rw [scoreLoop_one r1 i (a + b) w h10, scoreLoop_one r1 i b w h10]
      rfl
  | r1 :: r2 :: rest2, i, a, b, w => by
    by_cases h10 : r1.pins = 10
    · rw [scoreLoop_strike r1 (r2 :: rest2) i (a + b) w h10,
        scoreLoop_strike r1 (r2 :: rest2) i b w h10,
        show a + b + (10 + pinsHead (r2 :: rest2) + pinsSecond (r2 :: rest2))
          = a + (b + (10 + pinsHead (r2 :: rest2) + pinsSecond (r2 :: rest2))) from by ring]
      exact scoreLoop_acc (r2 :: rest2) (i + 1) a
        (b + (10 + pinsHead (r2 :: rest2) + pinsSecond (r2 :: rest2))) (some "Strike")
    · by_cases hsp : r1.pins + r2.pins = 10
      · rw [scoreLoop_spare r1 r2 rest2 i (a + b) w h10 hsp,
          scoreLoop_spare r1 r2 rest2 i b w h10 hsp,
          show a + b + (10 + pinsHead rest2) = a + (b + (10 + pinsHead rest2)) from by ring]
        exact scoreLoop_acc rest2 (i + 2) a (b + (10 + pinsHead rest2)) (some "Spare")
      · rw [scoreLoop_openf r1 r2 rest2 i (a + b) w h10 hsp,
          scoreLoop_openf r1 r2 rest2 i b w h10 hsp,
          show a + b + (r1.pins + r2.pins) = a + (b + (r1.pins + r2.pins)) from by ring]
        exact scoreLoop_acc rest2 (i + 2) a (b + (r1.pins + r2.pins)) (some "Open frame")

/-- Dropping the first roll preserves absence of strikes. -/
theorem noStrikeB_tail {r : Roll} {l : List Roll} (h : noStrikeB (r :: l) = true) :
    noStrikeB l = true := by
  simp only [noStrikeB, Bool.and_eq_true] at h
  exact h.2

/-- Dropping the first roll preserves absence of spares. -/
theorem noSpareB_tail {r : Roll} {l : List Roll} (h : noSpareB (r :: l) = true) :
    noSpareB l = true := by
  match l with
  | [] => rfl
  | r2 :: rest =>
    simp only [noSpareB, Bool.and_eq_true] at h
    exact h.2

/-- Unpacking of a successful single-roll validation. -/
theorem accepts_facts {last cand : Roll} (h : accepts last cand = true) :
    (cand.pos = 1 ∨ cand.pos = 2) ∧ 0 ≤ cand.pins ∧ cand.pins ≤ 10 ∧
    rollNumberInvalid last cand = false ∧ frameOverflowCheck last cand = false := by
  simp only [accepts, Bool.and_eq_true, Bool.or_eq_true, beq_iff_eq, decide_eq_true_eq,
    Bool.not_eq_true'] at h
  tauto

/-- A candidate that was not rejected by the frame-transition check
satisfies none of the four rejection conditions. -/
theorem rollNumberInvalid_false {last cand : Roll}
    (h : rollNumberInvalid last cand = false) :
    ¬ ((last.pos = 2 ∧ cand.pos = 2) ∨
       (last.pos = 1 ∧ last.pins < 10 ∧ cand.pos = 1) ∨
       (last.pos = 0 ∧ cand.pos = 2) ∨
       (last.pos = 1 ∧ last.pins = 10 ∧ cand.pos = 2)) := by
  rw [← rollNumberInvalid_iff]
  simp [h]

/-- Head fact of `noStrikeB`. -/
theorem noStrikeB_head {r : Roll} {l : List Roll} (h : noStrikeB (r :: l) = true) :
    ¬ (r.pos = 1 ∧ r.pins = 10) := by
  simp only [noStrikeB, Bool.and_eq_true, Bool.not_eq_true'] at h
  intro hc
  rcases h with ⟨h1, _⟩
  simp [hc.1, hc.2] at h1

/-- Head fact of `noSpareB`. -/
theorem noSpareB_head {r1 r2 : Roll} {l : List Roll} (h : noSpareB (r1 :: r2 :: l) = true) :
    ¬ (r1.pos = 1 ∧ r2.pos = 2 ∧ r1.pins + r2.pins = 10) := by
  simp only [noSpareB, Bool.and_eq_true, Bool.not_eq_true'] at h
  intro hc
  rcases h with ⟨h1, _⟩
  simp [hc.1, hc.2.1, hc.2.2] at h1

/-- The score loop on a valid history with no strike and no spare and an
even number of rolls: every frame is an open frame, so the loop adds
exactly the pins of all rolls, walks the index to the end, and leaves
`where` at "Open frame" (or untouched when there is nothing to process).
The `last` parameter is the roll preceding the suffix (the sentinel
`[0, 0]` at the start), which at a frame boundary has position 0 or 2. -/
theorem scoreLoop_open :
    ∀ (rolls : List Roll) (last : Roll) (i : Nat) (acc : Int) (w : Option String),
    (last.pos = 0 ∨ last.pos = 2) →
    validFrom last rolls = true →
    noStrikeB rolls = true →
    noSpareB rolls = true →
    rolls.length % 2 = 0 →
    scoreLoop rolls i acc w
      = some (acc + sumPins rolls, i + rolls.length,
              if rolls.isEmpty then w else some "Open frame")
  | [], last, i, acc, w => by
    intro _ _ _ _ _
    simp [scoreLoop, sumPins]
  | [r], last, i, acc, w => by
    intro _ _ _ _ hlen
    simp at hlen
  | r1 :: r2 :: rest, last, i, acc, w => by
    intro hlast hv hns hsp hlen
    simp only [validFrom, Bool.and_eq_true] at hv
    obtain ⟨hv1, hv2, hv3⟩ := hv
    obtain ⟨hp1, hn1a, hn1b, ht1, _⟩ := accepts_facts hv1
    obtain ⟨hp2, hn2a, hn2b, ht2, _⟩ := accepts_facts hv2
    have hni1 := rollNumberInvalid_false ht1
    have hni2 := rollNumberInvalid_false ht2
    have hpos1 : r1.pos = 1 := by
      rcases hp1 with h | h
      · exact h
      · exfalso
        rcases hlast with h0 | h2
        · exact hni1 (Or.inr (Or.inr (Or.inl ⟨h0, h⟩)))
        · exact hni1 (Or.inl ⟨h2, h⟩)
    have hpins1 : r1.pins ≠ 10 := fun he => noStrikeB_head hns ⟨hpos1, he⟩
    have hpins1lt : r1.pins < 10 := lt_of_le_of_ne hn1b hpins1
    have hpos2 : r2.pos = 2 := by
      rcases hp2 with h | h
      · exact absurd (Or.inr (Or.inl ⟨hpos1, hpins1lt, h⟩)) hni2
      · exact h
    have hsum : r1.pins + r2.pins ≠ 10 :=
      fun he => noSpareB_head hsp ⟨hpos1, hpos2, he⟩
    have hlen' : rest.length % 2 = 0 := by
      simp only [List.length_cons] at hlen
      omega
    rw [scoreLoop_openf r1 r2 rest i acc w hpins1 hsum]
    rw [scoreLoop_open rest r2 (i + 2) (acc + (r1.pins + r2.pins)) (some "Open frame")
        (Or.inr hpos2) hv3 (noStrikeB_tail (noStrikeB_tail hns))
        (noSpareB_tail (noSpareB_tail hsp)) hlen']
    simp only [List.isEmpty_cons, List.length_cons, sumPins, ite_self, Option.some.injEq,
      Prod.mk.injEq, Bool.false_eq_true, if_false]
    refine ⟨by ring, by omega, trivial⟩

/-- Exhaustive branch analysis of `record_roll`: either it leaves the
store untouched and does not report a recorded roll, or the structural
check passed on a candidate `[p, n]` within bounds, the response is
`recorded ⟨p, n⟩`, and the only change to the store is the append of
`⟨p, n⟩` to the addressed game's history. -/
theorem record_roll_cases (st : GameStore) (gid : Int) (roll : PyVal) :
    ((record_roll st gid roll).2 = st ∧
      ∀ q : Roll, (record_roll st gid roll).1 ≠ .recorded q) ∨
    (∃ rolls p n,
      st.games gid = some rolls ∧ (p = 1 ∨ p = 2) ∧ 0 ≤ n ∧ n ≤ 10 ∧
      (record_roll st gid roll).1 = .recorded ⟨p, n⟩ ∧
      (record_roll st gid roll).2.game_id_counter = st.game_id_counter ∧
      ∀ g, (record_roll st gid roll).2.games g
        = if g = gid then some (rolls ++ [(⟨p, n⟩ : Roll)]) else st.games g) := by
  unfold record_roll
  split
  · exact Or.inl ⟨rfl, fun q h => RollResponse.noConfusion h⟩
  · rename_i rolls hg
    split
    · exact Or.inl ⟨rfl, fun q h => RollResponse.noConfusion h⟩
    · exact Or.inl ⟨rfl, fun q h => RollResponse.noConfusion h⟩
    · rename_i hsc
      split
      · rename_i x p n
        split_ifs with h1 h2
        · exact Or.inl ⟨rfl, fun q h => RollResponse.noConfusion h⟩
        · exact Or.inl ⟨rfl, fun q h => RollResponse.noConfusion h⟩
        · obtain ⟨hp, h0, h10⟩ := structCheck_int_pair_bounds p n hsc
          exact Or.inr ⟨rolls, p, n, hg, hp, h0, h10, rfl, rfl, fun g => rfl⟩
      · exact Or.inl ⟨rfl, fun q h => RollResponse.noConfusion h⟩

/-- The score endpoint never changes the store. -/
theorem get_score_store (st : GameStore) (gid : Int) : (get_score st gid).2 = st := by
  unfold get_score
  split
  · rfl
  · split
    · rfl
    · rfl

/-- C1: the claim says the empty Roll History yields total 0 and an empty
breakdown, returning normally.  On the empty history the loop body never
runs, but the breakdown write after the loop still executes and reads the
loop-local variable `where`, which was never assigned, so the call raises
an UnboundLocalError instead of returning `(0, {})`: the model evaluates
to `none`. -/
theorem claim_c1_empty_history_raises : calculate_current_score [] = none := rfl

/-- C2: the claim says `compute_score` never raises and treats any
lookahead past the end of the history as 0 pins.  The history `[[1, 5]]`
(a single accepted non-strike first ball — a valid history) refutes this:
the spare test evaluates `roll1[1] + roll2[1]` with `roll2 = None` and
Python raises a TypeError, modelled as `none`. -/
theorem claim_c2_lookahead_raises :
    validHistory [⟨1, 5⟩] = true ∧ calculate_current_score [⟨1, 5⟩] = none :=
  ⟨rfl, rfl⟩

/-- C3: the claim says every structurally invalid candidate is rejected
with "Invalid roll input" and no exception is ever raised.  The candidate
`[]` (a list without exactly 2 elements) refutes this: the membership test
subscripts `roll[0]` before the length check and raises an IndexError; the
candidate `[1, "b"]` likewise raises a TypeError at `roll[1] < 0`.  Both
evaluate to the `raised` response in the model (the game exists:
`demoStore` holds game 1 with an empty history). -/
theorem claim_c3_structural_check_raises :
    demoStore.games 1 = some [] ∧
    (record_roll demoStore 1 (.pylist [])).1 = .raised ∧
    (record_roll demoStore 1 (.pylist [.pyint 1, .pystr "b"])).1 = .raised :=
  ⟨rfl, rfl, rfl⟩

/-- C4 (counterexample): `[[1, 5]]` is a valid Roll History with no strike
and no spare whose pins sum to 5, yet `compute_score` raises on it
(modelled as `none`), so it returns no total at all — refuting open-frame
linearity as stated for every valid strike-free, spare-free history. -/
theorem claim_c4_counterexample :
    validHistory [⟨1, 5⟩] = true ∧ noStrikeB [⟨1, 5⟩] = true ∧
    noSpareB [⟨1, 5⟩] = true ∧ sumPins [⟨1, 5⟩] = 5 ∧
    calculate_current_score [⟨1, 5⟩] = none :=
  ⟨rfl, rfl, rfl, rfl, rfl⟩

/-- C4 (amended): for every valid Roll History with no strike and no
spare that is nonempty and has an even number of rolls (every frame
complete), `compute_score` returns normally and its total equals the sum
of the pins of all rolls; every frame is an open frame. -/
theorem claim_c4_open_frame_linearity (rolls : List Roll)
    (hv : validHistory rolls = true) (hns : noStrikeB rolls = true)
    (hsp : noSpareB rolls = true) (hne : rolls ≠ []) (hlen : rolls.length % 2 = 0) :
    calculate_current_score rolls
      = some (sumPins rolls,
              [("frame_" ++ toString rolls.length, sumPins rolls, "Open frame")]) := by
  have h := scoreLoop_open rolls ⟨0, 0⟩ 0 0 none (Or.inl rfl) hv hns hsp hlen
  have hne' : rolls.isEmpty = false := by
    cases rolls
    · exact absurd rfl hne
    · rfl
  rw [hne'] at h
  simp only [Bool.false_eq_true, if_false] at h
  unfold calculate_current_score
  rw [h]
  simp

/-- C4 witness: scenario A, rolls `[[1, 9], [2, 0]]`, total 9, one
"Open frame" breakdown entry at key `frame_2`. -/
theorem claim_c4_witness :
    calculate_current_score [⟨1, 9⟩, ⟨2, 0⟩]
      = some (sumPins [⟨1, 9⟩, ⟨2, 0⟩],
              [("frame_" ++ toString (List.length [(⟨1, 9⟩ : Roll), ⟨2, 0⟩]),
                sumPins [⟨1, 9⟩, ⟨2, 0⟩], "Open frame")]) :=
  claim_c4_open_frame_linearity [⟨1, 9⟩, ⟨2, 0⟩] rfl rfl rfl (by decide) rfl

/-- C5: whenever the score loop processes a frame start whose roll has 10
pins (a strike), the resulting total is the total of the remaining loop
plus exactly `10 + pins(i+1) + pins(i+2)` (each 0 if absent): the strike
contributes exactly that amount, whatever came before (`acc`) and
whatever comes after; and in particular the history `[[1, 10]]` yields
total 10. -/
theorem claim_c5_strike_contribution (r : Roll) (rest : List Roll) (i : Nat)
    (acc : Int) (w : Option String) (h : r.pins = 10) :
    (scoreLoop (r :: rest) i acc w
      = (scoreLoop rest (i + 1) 0 (some "Strike")).map
          (fun p => (acc + (10 + pinsHead rest + pinsSecond rest) + p.1, p.2)))
    ∧ calculate_current_score [⟨1, 10⟩] = some (10, [("frame_1", 10, "Strike")]) := by
  constructor
  · have hacc := scoreLoop_acc rest (i + 1) (acc + (10 + pinsHead rest + pinsSecond rest)) 0
      (some "Strike")
    rw [add_zero] at hacc
    rw [scoreLoop_strike r rest i acc w h, hacc]
  · rfl

/-- C5 witness: a strike followed by two more rolls, instantiated at the
start of the loop. -/
theorem claim_c5_witness :
    (⟨1, 10⟩ : Roll).pins = 10 ∧
    ((scoreLoop [⟨1, 10⟩, ⟨1, 3⟩, ⟨2, 4⟩] 0 0 none
      = (scoreLoop [⟨1, 3⟩, ⟨2, 4⟩] (0 + 1) 0 (some "Strike")).map
          (fun p => (0 + (10 + pinsHead [⟨1, 3⟩, ⟨2, 4⟩] + pinsSecond [⟨1, 3⟩, ⟨2, 4⟩])
            + p.1, p.2)))
    ∧ calculate_current_score [⟨1, 10⟩] = some (10, [("frame_1", 10, "Strike")])) :=
  ⟨rfl, claim_c5_strike_contribution ⟨1, 10⟩ [⟨1, 3⟩, ⟨2, 4⟩] 0 0 none rfl⟩

/-- C6: whenever the score loop processes a spare — a frame start whose
roll has fewer than 10 pins and whose two rolls sum to exactly 10 — the
resulting total is the total of the remaining loop plus exactly
`10 + pins(i+2)` (0 if absent): the spare frame contributes exactly that
amount, whatever came before (`acc`) and whatever comes after. -/
theorem claim_c6_spare_contribution (r1 r2 : Roll) (rest : List Roll) (i : Nat)
    (acc : Int) (w : Option String) (h1 : r1.pins < 10) (h2 : r1.pins + r2.pins = 10) :
    scoreLoop (r1 :: r2 :: rest) i acc w
      = (scoreLoop rest (i + 2) 0 (some "Spare")).map
          (fun p => (acc + (10 + pinsHead rest) + p.1, p.2)) := by
  have hne : r1.pins ≠ 10 := by omega
  have hacc := scoreLoop_acc rest (i + 2) (acc + (10 + pinsHead rest)) 0 (some "Spare")
  rw [add_zero] at hacc
  rw [scoreLoop_spare r1 r2 rest i acc w hne h2, hacc]

/-- C6 witness: the spare `6 + 4` followed by one more frame. -/
theorem claim_c6_witness :
    (⟨1, 6⟩ : Roll).pins < 10 ∧ (⟨1, 6⟩ : Roll).pins + (⟨2, 4⟩ : Roll).pins = 10 ∧
    scoreLoop [⟨1, 6⟩, ⟨2, 4⟩, ⟨1, 3⟩, ⟨2, 5⟩] 0 0 none
      = (scoreLoop [⟨1, 3⟩, ⟨2, 5⟩] (0 + 2) 0 (some "Spare")).map
          (fun p => (0 + (10 + pinsHead [⟨1, 3⟩, ⟨2, 5⟩]) + p.1, p.2)) :=
  ⟨by decide, by decide,
    claim_c6_spare_contribution ⟨1, 6⟩ ⟨2, 4⟩ [⟨1, 3⟩, ⟨2, 5⟩] 0 0 none (by decide) (by decide)⟩

/-- C7: for every structurally valid candidate `[p, n]` posted to an
existing game, `record_roll` answers `"roll number p invalid"` exactly
when one of the four frame-transition conditions holds of the last
accepted roll (the sentinel `[0, 0]` when the history is empty). -/
theorem claim_c7_roll_number_invalid_iff (st : GameStore) (gid : Int)
    (rolls : List Roll) (p n : Int) (hg : st.games gid = some rolls)
    (hp : p = 1 ∨ p = 2) (h0 : 0 ≤ n) (h10 : n ≤ 10) :
    ((record_roll st gid (.pylist [.pyint p, .pyint n])).1 = .invalidRollNumber p ↔
      (((lastRoll rolls).pos = 2 ∧ p = 2) ∨
       ((lastRoll rolls).pos = 1 ∧ (lastRoll rolls).pins < 10 ∧ p = 1) ∨
       ((lastRoll rolls).pos = 0 ∧ p = 2) ∨
       ((lastRoll rolls).pos = 1 ∧ (lastRoll rolls).pins = 10 ∧ p = 2))) := by
  have hsc := structCheck_int_pair_pass p n hp h0 h10
  simp only [record_roll, hg, hsc]
  by_cases hinv : rollNumberInvalid (lastRoll rolls) ⟨p, n⟩ = true
  · rw [if_pos hinv]
    constructor
    · intro _
      exact (rollNumberInvalid_iff (lastRoll rolls) ⟨p, n⟩).mp hinv
    · intro _
      rfl
  · rw [if_neg hinv]
    have hfalse : rollNumberInvalid (lastRoll rolls) ⟨p, n⟩ = false := by
      simpa using hinv
    have hnoprop := rollNumberInvalid_false hfalse
    constructor
    · intro hresp
      exfalso
      by_cases hov : frameOverflowCheck (lastRoll rolls) ⟨p, n⟩ = true
      · rw [if_pos hov] at hresp
        exact RollResponse.noConfusion hresp
      · rw [if_neg hov] at hresp
        exact RollResponse.noConfusion hresp
    · intro hprop
      exact absurd hprop hnoprop

/-- C7 witness: scenario D, candidate `[2, 10]` as the very first roll of
game 1 (last roll is the sentinel `[0, 0]`) is rejected as
"roll number 2 invalid". -/
theorem claim_c7_witness :
    (record_roll demoStore 1 (.pylist [.pyint 2, .pyint 10])).1 = .invalidRollNumber 2 :=
  (claim_c7_roll_number_invalid_iff demoStore 1 [] 2 10 rfl (Or.inr rfl)
      (by decide) (by decide)).mpr
    (Or.inr (Or.inr (Or.inl ⟨rfl, rfl⟩)))

/-- C8: a structurally valid second-ball candidate `[2, n]` for an
existing game that passes the frame-transition check is rejected with
"Roll points cannot be greater than 10 in a frame" when the last accepted
roll was a first ball and the two pin counts sum to more than 10. -/
theorem claim_c8_frame_overflow (st : GameStore) (gid : Int) (rolls : List Roll)
    (n : Int) (hg : st.games gid = some rolls) (h0 : 0 ≤ n) (h10 : n ≤ 10)
    (hlast : (lastRoll rolls).pos = 1)
    (htrans : rollNumberInvalid (lastRoll rolls) ⟨2, n⟩ = false)
    (hover : n + (lastRoll rolls).pins > 10) :
    (record_roll st gid (.pylist [.pyint 2, .pyint n])).1 = .frameOverflow := by
  have hsc := structCheck_int_pair_pass 2 n (Or.inr rfl) h0 h10
  simp only [record_roll, hg, hsc]
  rw [if_neg (by simp [htrans]), if_pos (by simp [frameOverflowCheck, hlast, hover])]

/-- C8 witness: scenario E, prior roll `[1, 9]`, candidate `[2, 5]` is
rejected with the frame-overflow message. -/
theorem claim_c8_witness :
    (record_roll demoStore9 1 (.pylist [.pyint 2, .pyint 5])).1 = .frameOverflow :=
  claim_c8_frame_overflow demoStore9 1 [⟨1, 9⟩] 5 rfl (by decide) (by decide) rfl
    (by decide) (by decide)

/-- C9: every roll stored in any game's history has frame position 1 or 2
and an integer pin count in `[0, 10]`: the invariant holds of the initial
empty store and is preserved by game creation, by roll recording (whether
the roll is accepted, rejected, or the handler raises), and by score
retrieval. -/
theorem claim_c9_store_invariant :
    StoreOk emptyStore ∧
    (∀ st, StoreOk st → StoreOk (create_game st).2) ∧
    (∀ st gid roll, StoreOk st → StoreOk (record_roll st gid roll).2) ∧
    (∀ st gid, StoreOk st → StoreOk (get_score st gid).2) := by
  refine ⟨?_, ?_, ?_, ?_⟩
  · intro gid rolls h
    simp [emptyStore] at h
  · intro st hok gid rolls h r hr
    simp only [create_game] at h
    split_ifs at h with hgid
    · simp only [Option.some.injEq] at h
      subst h
      simp at hr
    · exact hok gid rolls h r hr
  · intro st gid roll hok
    rcases record_roll_cases st gid roll with ⟨hst, _⟩ |
      ⟨rolls, p, n, hg, hp, h0, h10, _, _, hgames⟩
    · rw [hst]
      exact hok
    · intro g rolls2 h2 r hr
      rw [hgames g] at h2
      split_ifs at h2 with hgg
      · simp only [Option.some.injEq] at h2
        subst h2
        rcases List.mem_append.mp hr with hmem | hmem
        · exact hok gid rolls hg r hmem
        · have : r = ⟨p, n⟩ := by simpa using hmem
          subst this
          exact ⟨hp, h0, h10⟩
      · exact hok g rolls2 h2 r hr
  · intro st gid hok
    rw [get_score_store st gid]
    exact hok

/-- C9 witness: the store reached from the initial state by one game
creation and one accepted roll satisfies the invariant. -/
theorem claim_c9_witness :
    StoreOk (record_roll demoStore 1 (.pylist [.pyint 1, .pyint 5])).2 :=
  claim_c9_store_invariant.2.2.1 demoStore 1 (.pylist [.pyint 1, .pyint 5])
    (claim_c9_store_invariant.2.1 emptyStore claim_c9_store_invariant.1)

/-- C10: `record_roll` appends the candidate exactly when validation
accepts it: a `recorded` response means the addressed game's history grew
by exactly that roll and every other game's history is untouched, and any
other response (a rejection, not-found, or a raised exception) leaves the
whole store unchanged. -/
theorem claim_c10_append_iff (st : GameStore) (gid : Int) (roll : PyVal) :
    (∀ q : Roll, (record_roll st gid roll).1 = .recorded q →
      ∃ rolls, st.games gid = some rolls ∧
        (record_roll st gid roll).2.games gid = some (rolls ++ [q]) ∧
        ∀ g, g ≠ gid → (record_roll st gid roll).2.games g = st.games g) ∧
    ((∀ q : Roll, (record_roll st gid roll).1 ≠ .recorded q) →
      (record_roll st gid roll).2 = st) := by
  rcases record_roll_cases st gid roll with ⟨hst, hno⟩ |
    ⟨rolls, p, n, hg, _, _, _, hresp, _, hgames⟩
  · exact ⟨fun q hq => absurd hq (hno q), fun _ => hst⟩
  · constructor
    · intro q hq
      rw [hresp] at hq
      injection hq with hpn
      subst hpn
      refine ⟨rolls, hg, ?_, ?_⟩
      · rw [hgames gid]
        simp
      · intro g hgne
        rw [hgames g]
        simp [hgne]
    · intro hnone
      exact absurd hresp (hnone ⟨p, n⟩)

/-- C10 witness: recording `[1, 5]` into the fresh game 1 appends it
there and leaves game 2 (absent) untouched. -/
theorem claim_c10_witness :
    (record_roll demoStore 1 (.pylist [.pyint 1, .pyint 5])).2.games 1
        = some [(⟨1, 5⟩ : Roll)] ∧
    (record_roll demoStore 1 (.pylist [.pyint 1, .pyint 5])).2.games 2
        = demoStore.games 2 := by
  obtain ⟨rolls, hg, hupd, hother⟩ :=
    (claim_c10_append_iff demoStore 1 (.pylist [.pyint 1, .pyint 5])).1 ⟨1, 5⟩ rfl
  have hr : ([] : List Roll) = rolls := by
    have h1 : demoStore.games 1 = some [] := rfl
    rw [h1] at hg
    exact Option.some.inj hg
  subst hr
  exact ⟨hupd, hother 2 (by decide)⟩

end Bowling
